import Mathlib

/-!
# Verification of the platform-jumping game engine

Shallow embedding of the simulation core of `src/components/GameCanvas.tsx`
(with constants from `src/constants.ts` and data shapes from `src/types.ts`).

All JavaScript numbers are modelled as exact rationals (`ℚ`); the score is an
integer (it starts at 0 and only ever has `Math.floor` results added to it).
Purely visual state (particles, ripples, colors, the random platform id) and
audio calls are omitted: no claim depends on them.  The `onGameOver` callback
is modelled by an invocation counter `gameOverCount` in the game state.
`Math.random()` draws made during platform generation are passed in explicitly
as the fields of a `Gen` record, and `performance.now()` is passed as a `now`
argument.  The `Math.hypot` distance test `dist < r` of the power-up pickup is
encoded square-free as `0 ≤ r ∧ dist² < r²`, which is equivalent since
`dist ≥ 0`.
-/

namespace Knew6

/-! ## Constants (src/constants.ts) -/

def CANVAS_WIDTH : ℚ := 400
def CANVAS_HEIGHT : ℚ := 600
def FRICTION : ℚ := 4/5
def PLAYER_SIZE : ℚ := 40
def PLATFORM_WIDTH : ℚ := 105
def PLATFORM_HEIGHT : ℚ := 15
def POWERUP_SIZE : ℚ := 20
def POWERUP_DURATION : ℚ := 10000
def POWERUP_SPAWN_CHANCE : ℚ := 1/10
-- GameCanvas.tsx: FIXED_TIMESTEP = 1000 / 60, MAX_DELTA_TIME = 250
def FIXED_TIMESTEP : ℚ := 1000/60
def MAX_DELTA_TIME : ℚ := 250

/-! ## Data model (src/types.ts) -/

inductive PowerUpType where
  | SHIELD
  | SCORE_MULTIPLIER
  | GIANT
  | BOOSTER
deriving Repr, DecidableEq

inductive CharacterType where
  | YELLOW
  | BLUE
deriving Repr, DecidableEq

structure Player where
  x : ℚ
  y : ℚ
  vx : ℚ
  vy : ℚ
  width : ℚ
  height : ℚ
  baseJumpStrength : ℚ
  gravity : ℚ
  moveSpeed : ℚ
  shieldCount : ℕ
  scoreMultiplierActive : Bool
  scoreMultiplierEndTime : ℚ  -- 0 encodes the TS `undefined`/initial value
  isGiant : Bool
  giantEndTime : ℚ
  isBoosting : Bool
  boosterEndTime : ℚ
deriving Repr, DecidableEq

structure Platform where
  x : ℚ
  y : ℚ
  width : ℚ
  height : ℚ
  isMoving : Bool
  moveSpeed : ℚ
  initialX : ℚ
  moveRange : ℚ
  powerUp : Option PowerUpType
deriving Repr, DecidableEq

/-- Score tier entry (src/constants.ts SCORE_TIERS); the color fields are
visual-only and omitted. -/
structure Tier where
  min : ℤ
  multiplier : ℚ
deriving Repr, DecidableEq

def SCORE_TIERS : List Tier :=
  [⟨0, 1⟩, ⟨1000, 3/2⟩, ⟨2500, 2⟩, ⟨5000, 3⟩, ⟨8000, 5⟩]

/-- `getCurrentTier` (GameCanvas.tsx lines 268-275): scan the tier table from
the highest index downward and return the first tier whose `min` is at most
the score; the fallback `SCORE_TIERS[0]` is the literal `⟨0, 1⟩`. -/
def getCurrentTier (score : ℤ) : Tier :=
  match SCORE_TIERS.reverse.find? (fun t => decide (t.min ≤ score)) with
  | some t => t
  | none => ⟨0, 1⟩

/-- Held-key state read once per physics step (ArrowLeft/KeyA, ArrowRight/KeyD). -/
structure Input where
  left : Bool
  right : Bool
deriving Repr, DecidableEq

/-- The mutable engine state: player, platforms, score, and a counter of
`onGameOver` callback invocations. -/
structure GameST where
  player : Player
  platforms : List Platform
  score : ℤ
  gameOverCount : ℕ
deriving Repr, DecidableEq

/-! ## Power-up state machine (GameCanvas.tsx `activatePowerUp`, lines 538-601)

The TS truthiness test `p.xEndTime && p.xEndTime > now` is modelled as
`xEndTime ≠ 0 ∧ xEndTime > now`.  The `setTimeout` expiry callbacks are
modelled as separate functions (`expireGiant` below for the Giant one). -/

def activatePowerUp (now : ℚ) (t : PowerUpType) (p : Player) : Player :=
  match t with
  | .SHIELD => { p with shieldCount := 1 }
  | .SCORE_MULTIPLIER =>
    let duration := POWERUP_DURATION +
      (if p.scoreMultiplierActive ∧ p.scoreMultiplierEndTime ≠ 0 ∧
          now < p.scoreMultiplierEndTime
       then p.scoreMultiplierEndTime - now else 0)
    { p with scoreMultiplierActive := true, scoreMultiplierEndTime := now + duration }
  | .GIANT =>
    let duration : ℚ := 5000 +
      (if p.isGiant ∧ p.giantEndTime ≠ 0 ∧ now < p.giantEndTime
       then p.giantEndTime - now else 0)
    let p1 :=
      if p.isGiant then p
      else
        { p with
          width := PLAYER_SIZE * 2
          height := PLAYER_SIZE * 2
          y := p.y - (PLAYER_SIZE * 2 - p.height)
          x := p.x - (PLAYER_SIZE * 2 - p.width) / 2 }
    { p1 with isGiant := true, giantEndTime := now + duration }
  | .BOOSTER =>
    let duration : ℚ := 3000 +
      (if p.isBoosting ∧ p.boosterEndTime ≠ 0 ∧ now < p.boosterEndTime
       then p.boosterEndTime - now else 0)
    { p with isBoosting := true, boosterEndTime := now + duration }

/-- The Giant expiry `setTimeout` callback (GameCanvas.tsx lines 578-586). -/
def expireGiant (p : Player) : Player :=
  { p with
    isGiant := false
    y := p.y + (p.height - PLAYER_SIZE)
    x := p.x + (p.width - PLAYER_SIZE) / 2
    width := PLAYER_SIZE
    height := PLAYER_SIZE }

/-! ## Physics step phases (GameCanvas.tsx `updatePhysics`, lines 603-856) -/

/-- Moving-platform advance (lines 609-616).  The TS guard
`p.isMoving && p.moveSpeed && p.initialX !== undefined && p.moveRange !== undefined`
becomes `p.isMoving ∧ p.moveSpeed ≠ 0` (the optional fields are always present
in the embedding). -/
def movePlatform (p : Platform) : Platform :=
  if p.isMoving ∧ p.moveSpeed ≠ 0 then
    let x1 := p.x + p.moveSpeed
    let ms1 := if p.initialX + p.moveRange < x1 ∨ x1 < p.initialX - p.moveRange
               then -p.moveSpeed else p.moveSpeed
    let x2 := if x1 < 0 then 0 else x1
    let ms2 := if x1 < 0 then |ms1| else ms1
    let x3 := if CANVAS_WIDTH < x2 + p.width then CANVAS_WIDTH - p.width else x2
    let ms3 := if CANVAS_WIDTH < x2 + p.width then -|ms2| else ms2
    { p with x := x3, moveSpeed := ms3 }
  else p

/-- The horizontal velocity after input acceleration and friction
(lines 619-622): both keys may contribute in the same step. -/
def hStepVx (i : Input) (pl : Player) : ℚ :=
  (pl.vx + (if i.left then -pl.moveSpeed else 0) +
   (if i.right then pl.moveSpeed else 0)) * FRICTION

/-- Horizontal movement: input acceleration, friction, x integration and the
wall clamps (lines 619-632). -/
def horizontalStep (i : Input) (pl : Player) : Player :=
  let vx1 := hStepVx i pl
  let x1 := pl.x + vx1
  let x2 := if x1 < 0 then 0 else x1
  let vx2 := if x1 < 0 then 0 else vx1
  let x3 := if CANVAS_WIDTH < x2 + pl.width then CANVAS_WIDTH - pl.width else x2
  let vx3 := if CANVAS_WIDTH < x2 + pl.width then 0 else vx2
  { pl with x := x3, vx := vx3 }

/-- Vertical update: Booster overrides gravity, then y integration
(lines 635-660; the booster exhaust particles are visual-only). -/
def verticalStep (pl : Player) : Player :=
  let vy1 := if pl.isBoosting then -12 else pl.vy + pl.gravity
  { pl with vy := vy1, y := pl.y + vy1 }

/-- The landing test of lines 665-676: falling, not boosting, inset horizontal
bands overlap, bottom edge within `[plat.y, plat.y + 20]`. -/
def landingHit (pl : Player) (plat : Platform) : Bool :=
  decide (0 < pl.vy) && !pl.isBoosting &&
  decide (plat.x < pl.x + pl.width - 5) &&
  decide (pl.x + 5 < plat.x + plat.width) &&
  decide (plat.y ≤ pl.y + pl.height) &&
  decide (pl.y + pl.height ≤ plat.y + 20)

/-- One iteration of the platform-interaction `forEach` (lines 663-716):
landing bounce first, then power-up pickup against the updated player.
`Math.hypot(dx, dy) < r` is encoded as `0 ≤ r ∧ dx² + dy² < r²`. -/
def interactPlatform (now : ℚ) (pl : Player) (plat : Platform) :
    Player × Platform :=
  let pl1 :=
    if landingHit pl plat then
      { pl with
        vy := pl.baseJumpStrength
        y := plat.y - pl.height
        vx := pl.vx * (1/2) }
    else pl
  match plat.powerUp with
  | none => (pl1, plat)
  | some t =>
    let puX := plat.x + plat.width / 2
    let puY := plat.y - POWERUP_SIZE
    let dx := pl1.x + pl1.width / 2 - puX
    let dy := pl1.y + pl1.height / 2 - puY
    let radius := pl1.width * (if pl1.isBoosting then 3/2 else 1)
    if 0 ≤ radius ∧ dx ^ 2 + dy ^ 2 < radius ^ 2 then
      (activatePowerUp now t pl1, { plat with powerUp := none })
    else (pl1, plat)

/-- The whole platform-interaction `forEach`, threading the mutated player
through the list and collecting the (possibly token-cleared) platforms. -/
def interactAll (now : ℚ) : Player → List Platform → Player × List Platform
  | pl, [] => (pl, [])
  | pl, plat :: rest =>
    let s1 := interactPlatform now pl plat
    let s2 := interactAll now s1.1 rest
    (s2.1, s1.2 :: s2.2)

/-! ## Scrolling and procedural generation (lines 718-831) -/

/-- The `Math.random()` draws consumed by one platform-generation event, in
source order. -/
structure Gen where
  gapRand : ℚ        -- vertical gap draw (line 740)
  diffRand : ℚ       -- randomDifficulty draw (line 746)
  xRand : ℚ          -- horizontal position draw (line 759)
  moveChanceRand : ℚ -- moving-platform chance draw (line 769)
  signRand : ℚ       -- speed sign draw (line 772)
  rangeRand : ℚ      -- oscillation range draw (line 773)
  sizeRand1 : ℚ      -- first moving-width re-randomization draw (line 781)
  sizeRand2 : ℚ      -- second moving-width re-randomization draw (line 790)
  puChanceRand : ℚ   -- power-up spawn chance draw (line 798)
  puKindRand : ℚ     -- power-up kind draw (line 799)
deriving Repr, DecidableEq

/-- New-platform width before the moving-platform re-randomization
(lines 743-755): base width times a uniform factor in [0.8, 1.2]; when
`currentScore > 500` this randomized value is overwritten by
`max (PLATFORM_WIDTH * (1 - shrinkFactor)) 45`. -/
def preMovingWidth (currentScore : ℤ) (g : Gen) : ℚ :=
  let newWidth := PLATFORM_WIDTH * (4/5 + g.diffRand * (2/5))
  if 500 < currentScore then
    let shrinkFactor := min (((currentScore : ℚ) - 500) / 5000) (1/2)
    max (PLATFORM_WIDTH * (1 - shrinkFactor)) 45
  else newWidth

/-- Power-up spawn decision (lines 796-804). -/
def genPowerUp (g : Gen) : Option PowerUpType :=
  if g.puChanceRand < POWERUP_SPAWN_CHANCE then
    some (if g.puKindRand < 1/4 then .SHIELD
          else if g.puKindRand < 1/2 then .SCORE_MULTIPLIER
          else if g.puKindRand < 3/4 then .GIANT
          else .BOOSTER)
  else none

/-- The clamped horizontal position of a new platform (lines 757-759):
uniform in a ±200 px window around the reference platform, clamped fully
on-screen. -/
def genX0 (currentScore : ℤ) (lastPlat : Platform) (g : Gen) : ℚ :=
  let nw := preMovingWidth currentScore g
  let minX := max 0 (lastPlat.x - 200)
  let maxX := min (CANVAS_WIDTH - nw) (lastPlat.x + 200)
  max 0 (min (g.xRand * (maxX - minX) + minX) (CANVAS_WIDTH - nw))

/-- The oscillation-center reclamp of lines 774-775, applied to the width the
platform has at that point (before the moving-width re-randomization). -/
def clampInitialX (x0 mr nw : ℚ) : ℚ :=
  let ix1 := if x0 - mr < 0 then mr else x0
  if CANVAS_WIDTH < ix1 + mr + nw then CANVAS_WIDTH - nw - mr else ix1

/-- Synthesis of one new platform (lines 739-829).  `currentScore` is the
score captured at the start of `updatePhysics` (line 606), which the shrink
and moving-platform decisions read.  Colors and the random id are omitted. -/
def genPlatform (currentScore : ℤ) (lastPlat : Platform) (g : Gen) : Platform :=
  let gapY := g.gapRand * 50 + 60
  let y := lastPlat.y - gapY
  let nw := preMovingWidth currentScore g
  let x0 := genX0 currentScore lastPlat g
  if 1500 < currentScore ∧
     g.moveChanceRand < (if 3000 < currentScore then (3:ℚ)/5 else 3/10) then
    let baseSpeed : ℚ := if 3000 < currentScore then 5/2 else 3/2
    let ms := (if (1:ℚ)/2 < g.signRand then 1 else -1) * baseSpeed
    let mr := g.rangeRand * 50 + 50
    let ix2 := clampInitialX x0 mr nw
    let w1 := max 40 (min (nw * (7/10 + g.sizeRand1 * (3/5))) (PLATFORM_WIDTH * (3/2)))
    let w2 := max 40 (min (w1 * (7/10 + g.sizeRand2 * (3/5))) (PLATFORM_WIDTH * (3/2)))
    { x := ix2, y := y, width := w2, height := PLATFORM_HEIGHT, isMoving := true,
      moveSpeed := ms, moveRange := mr, initialX := ix2, powerUp := genPowerUp g }
  else
    { x := x0, y := y, width := nw, height := PLATFORM_HEIGHT, isMoving := false,
      moveSpeed := 0, moveRange := 0, initialX := x0, powerUp := genPowerUp g }

/-- Scroll-on-ascent, score gain, platform recycling and generation
(lines 719-831).  Particle/ripple shifting is visual-only and omitted. -/
def scrollStep (g : Gen) (currentScore : ℤ) (s : GameST) : GameST :=
  if s.player.y < CANVAS_HEIGHT / 2 then
    let diff := CANVAS_HEIGHT / 2 - s.player.y
    let player := { s.player with y := CANVAS_HEIGHT / 2 }
    let platforms := s.platforms.map (fun p => { p with y := p.y + diff })
    let multiplier : ℚ := if player.scoreMultiplierActive then 2 else 1
    let tier := getCurrentTier s.score
    let gainedScore := ⌊diff * multiplier * tier.multiplier⌋
    let score := s.score + gainedScore
    let platforms2 := platforms.filter (fun p => decide (p.y < CANVAS_HEIGHT))
    let platforms3 :=
      match platforms2.getLast? with
      | some lastPlat =>
        if 70 < lastPlat.y then platforms2 ++ [genPlatform currentScore lastPlat g]
        else platforms2
      | none => platforms2
    { s with player := player, platforms := platforms3, score := score }
  else s

/-- Fall-through check (lines 833-843): with a shield charge the fall becomes
a 1.5× jump impulse, otherwise `onGameOver` is invoked (counter incremented). -/
def fallCheck (s : GameST) : GameST :=
  if CANVAS_HEIGHT < s.player.y then
    if 0 < s.player.shieldCount then
      { s with player := { s.player with
          shieldCount := s.player.shieldCount - 1
          vy := s.player.baseJumpStrength * (3/2) } }
    else { s with gameOverCount := s.gameOverCount + 1 }
  else s

/-- The state after platform movement, player movement and platform
interactions, i.e. everything of `updatePhysics` before the scroll phase. -/
def preScrollState (i : Input) (now : ℚ) (s : GameST) : GameST :=
  let platforms := s.platforms.map movePlatform
  let res := interactAll now (verticalStep (horizontalStep i s.player)) platforms
  { s with player := res.1, platforms := res.2 }

/-- One fixed physics step: `updatePhysics` (lines 603-856).  The score passed
to the generator is the one captured at line 606, i.e. `s.score` (the scroll
gain is added afterwards at line 731, but generation reads `currentScore`). -/
def updatePhysics (i : Input) (now : ℚ) (g : Gen) (s : GameST) : GameST :=
  fallCheck (scrollStep g s.score (preScrollState i now s))

/-! ## Game loop driver (`animate`, lines 402-448) -/

/-- The accumulator-draining `while` loop of lines 431-442, with a fuel bound
for structural recursion (`242` suffices: the loop itself breaks after 241
updates by zeroing the accumulator). -/
def drainLoop (i : Input) (now : ℚ) (g : Gen) :
    ℕ → ℕ → ℚ → GameST → GameST × ℚ
  | 0, _, acc, s => (s, acc)
  | fuel + 1, steps, acc, s =>
    if FIXED_TIMESTEP ≤ acc then
      let s' := updatePhysics i now g s
      let acc' := acc - FIXED_TIMESTEP
      let steps' := steps + 1
      if 240 < steps' then (s', 0)
      else drainLoop i now g fuel steps' acc' s'
    else (s, acc)

/-- One animation tick (lines 402-448): the frame delta is capped at
`MAX_DELTA_TIME`; physics steps are drained only while the external game
state is PLAYING and the ready phase is over. -/
def animateTick (playing ready : Bool) (i : Input) (now : ℚ) (g : Gen)
    (deltaRaw acc : ℚ) (s : GameST) : GameST × ℚ :=
  let dt := min deltaRaw MAX_DELTA_TIME
  if playing then
    if ready then (s, acc)
    else drainLoop i now g 242 0 (acc + dt) s
  else (s, acc)

/-! ## Round reset (`resetGame`, lines 279-336) -/

/-- Character stat table (src/constants.ts CHARACTER_SPECS):
(jumpStrength, gravity, moveSpeed). -/
def CHARACTER_SPECS : CharacterType → ℚ × ℚ × ℚ
  | .YELLOW => (-15, 1/2, 6/5)
  | .BLUE => (-27/2, 19/50, 9/10)

/-- Round reset (lines 279-336): fresh player from the character stats and
the five static starting platforms; score and callback counter zeroed. -/
def resetGame (c : CharacterType) : GameST :=
  let stats := CHARACTER_SPECS c
  let startPlat : ℚ → Platform := fun yy =>
    { x := CANVAS_WIDTH / 2 - PLATFORM_WIDTH / 2, y := yy,
      width := PLATFORM_WIDTH, height := PLATFORM_HEIGHT, isMoving := false,
      moveSpeed := 0, initialX := CANVAS_WIDTH / 2 - PLATFORM_WIDTH / 2,
      moveRange := 0, powerUp := none }
  { player :=
      { x := CANVAS_WIDTH / 2 - PLAYER_SIZE / 2
        y := CANVAS_HEIGHT - 150
        vx := 0, vy := 0
        width := PLAYER_SIZE, height := PLAYER_SIZE
        baseJumpStrength := stats.1
        gravity := stats.2.1
        moveSpeed := stats.2.2
        shieldCount := 0
        scoreMultiplierActive := false, scoreMultiplierEndTime := 0
        isGiant := false, giantEndTime := 0
        isBoosting := false, boosterEndTime := 0 }
    platforms :=
      [startPlat (CANVAS_HEIGHT - 50),
       startPlat (CANVAS_HEIGHT - 170),
       { startPlat (CANVAS_HEIGHT - 290) with
           x := CANVAS_WIDTH / 2 - PLATFORM_WIDTH / 2 - 60,
           initialX := CANVAS_WIDTH / 2 - PLATFORM_WIDTH / 2 - 60 },
       { startPlat (CANVAS_HEIGHT - 410) with
           x := CANVAS_WIDTH / 2 - PLATFORM_WIDTH / 2 + 60,
           initialX := CANVAS_WIDTH / 2 - PLATFORM_WIDTH / 2 + 60 },
       startPlat (CANVAS_HEIGHT - 530)]
    score := 0
    gameOverCount := 0 }

/-! ## Helper lemmas -/

section Helpers

variable (i : Input) (pl : Player) (now : ℚ)

@[simp] lemma horizontalStep_y : (horizontalStep i pl).y = pl.y := rfl
@[simp] lemma horizontalStep_vy : (horizontalStep i pl).vy = pl.vy := rfl
@[simp] lemma horizontalStep_width : (horizontalStep i pl).width = pl.width := rfl
@[simp] lemma horizontalStep_height : (horizontalStep i pl).height = pl.height := rfl
@[simp] lemma horizontalStep_gravity : (horizontalStep i pl).gravity = pl.gravity := rfl
@[simp] lemma horizontalStep_isBoosting :
    (horizontalStep i pl).isBoosting = pl.isBoosting := rfl
@[simp] lemma horizontalStep_shieldCount :
    (horizontalStep i pl).shieldCount = pl.shieldCount := rfl
@[simp] lemma horizontalStep_baseJumpStrength :
    (horizontalStep i pl).baseJumpStrength = pl.baseJumpStrength := rfl
@[simp] lemma horizontalStep_scoreMultiplierActive :
    (horizontalStep i pl).scoreMultiplierActive = pl.scoreMultiplierActive := rfl

@[simp] lemma verticalStep_x (pl : Player) : (verticalStep pl).x = pl.x := rfl
@[simp] lemma verticalStep_vx (pl : Player) : (verticalStep pl).vx = pl.vx := rfl
@[simp] lemma verticalStep_width (pl : Player) : (verticalStep pl).width = pl.width := rfl
@[simp] lemma verticalStep_height (pl : Player) :
    (verticalStep pl).height = pl.height := rfl
@[simp] lemma verticalStep_isBoosting (pl : Player) :
    (verticalStep pl).isBoosting = pl.isBoosting := rfl
@[simp] lemma verticalStep_shieldCount (pl : Player) :
    (verticalStep pl).shieldCount = pl.shieldCount := rfl
@[simp] lemma verticalStep_baseJumpStrength (pl : Player) :
    (verticalStep pl).baseJumpStrength = pl.baseJumpStrength := rfl
@[simp] lemma verticalStep_scoreMultiplierActive (pl : Player) :
    (verticalStep pl).scoreMultiplierActive = pl.scoreMultiplierActive := rfl

lemma verticalStep_y (pl : Player) :
    (verticalStep pl).y =
      pl.y + (if pl.isBoosting then -12 else pl.vy + pl.gravity) := rfl

lemma verticalStep_vy (pl : Player) :
    (verticalStep pl).vy = (if pl.isBoosting then -12 else pl.vy + pl.gravity) := rfl

/-- After the two wall clamps, x is inside `[0, CANVAS_WIDTH − width]`. -/
lemma horizontalStep_x_range (hw : pl.width ≤ CANVAS_WIDTH) :
    0 ≤ (horizontalStep i pl).x ∧
    (horizontalStep i pl).x + pl.width ≤ CANVAS_WIDTH := by
  unfold horizontalStep
  dsimp only
  split_ifs <;> constructor <;> simp_all <;> linarith

/-- If either wall clamp triggers, the resulting vx is 0. -/
lemma horizontalStep_clamp_vx (hw : pl.width ≤ CANVAS_WIDTH)
    (ht : pl.x + hStepVx i pl < 0 ∨
          CANVAS_WIDTH < pl.x + hStepVx i pl + pl.width) :
    (horizontalStep i pl).vx = 0 := by
  unfold horizontalStep
  dsimp only
  rcases ht with h | h <;> split_ifs <;> simp_all <;> linarith

/-- A platform whose token is gone and a non-falling player pass through
`interactPlatform` unchanged. -/
lemma interactPlatform_vy_nonpos (plat : Platform) (hpu : plat.powerUp = none)
    (hvy : pl.vy ≤ 0) : interactPlatform now pl plat = (pl, plat) := by
  unfold interactPlatform landingHit
  rw [hpu]
  simp [not_lt.mpr hvy]

lemma interactAll_vy_nonpos (plats : List Platform)
    (hpu : ∀ q ∈ plats, q.powerUp = none) (hvy : pl.vy ≤ 0) :
    interactAll now pl plats = (pl, plats) := by
  induction plats with
  | nil => rfl
  | cons a l ih =>
    unfold interactAll
    rw [interactPlatform_vy_nonpos pl now a (hpu a (by simp)) hvy]
    simp [ih (fun q hq => hpu q (by simp [hq]))]

/-- Closed form of the downward tier scan over the concrete tier table. -/
lemma getCurrentTier_eq (sc : ℤ) :
    getCurrentTier sc =
      if 8000 ≤ sc then ⟨8000, 5⟩
      else if 5000 ≤ sc then ⟨5000, 3⟩
      else if 2500 ≤ sc then ⟨2500, 2⟩
      else if 1000 ≤ sc then ⟨1000, 3/2⟩
      else ⟨0, 1⟩ := by
  have hrev : SCORE_TIERS.reverse =
      [⟨8000, 5⟩, ⟨5000, 3⟩, ⟨2500, 2⟩, ⟨1000, 3/2⟩, ⟨0, 1⟩] := by rfl
  unfold getCurrentTier
  rw [hrev]
  by_cases h8 : (8000 : ℤ) ≤ sc
  · simp [List.find?, h8]
  · by_cases h5 : (5000 : ℤ) ≤ sc
    · simp [List.find?, h8, h5]
    · by_cases h2 : (2500 : ℤ) ≤ sc
      · simp [List.find?, h8, h5, h2]
      · by_cases h1 : (1000 : ℤ) ≤ sc
        · simp [List.find?, h8, h5, h2, h1]
        · by_cases h0 : (0 : ℤ) ≤ sc <;>
            simp [List.find?, h8, h5, h2, h1, h0]

/-- Every tier the scan can return has multiplier at least 1. -/
lemma one_le_tier_multiplier (sc : ℤ) : 1 ≤ (getCurrentTier sc).multiplier := by
  rw [getCurrentTier_eq]
  split_ifs <;> norm_num

lemma scrollStep_score (g : Gen) (cs : ℤ) (s : GameST) :
    (scrollStep g cs s).score =
      s.score +
        (if s.player.y < CANVAS_HEIGHT / 2 then
          ⌊(CANVAS_HEIGHT / 2 - s.player.y) *
            (if s.player.scoreMultiplierActive then 2 else 1) *
            (getCurrentTier s.score).multiplier⌋
         else 0) := by
  unfold scrollStep
  split_ifs <;> simp_all

lemma scrollStep_player_of_not_lt (g : Gen) (cs : ℤ) (s : GameST)
    (h : ¬ s.player.y < CANVAS_HEIGHT / 2) : scrollStep g cs s = s := by
  unfold scrollStep
  rw [if_neg h]

@[simp] lemma scrollStep_gameOverCount (g : Gen) (cs : ℤ) (s : GameST) :
    (scrollStep g cs s).gameOverCount = s.gameOverCount := by
  unfold scrollStep
  split_ifs <;> rfl

@[simp] lemma fallCheck_score (s : GameST) : (fallCheck s).score = s.score := by
  unfold fallCheck
  split_ifs <;> rfl

@[simp] lemma preScrollState_score (i : Input) (now : ℚ) (s : GameST) :
    (preScrollState i now s).score = s.score := rfl

@[simp] lemma preScrollState_gameOverCount (i : Input) (now : ℚ) (s : GameST) :
    (preScrollState i now s).gameOverCount = s.gameOverCount := rfl

/-- With an empty platform list the pre-scroll phase is just the two player
movement phases. -/
lemma preScrollState_nil (i : Input) (now : ℚ) (s : GameST)
    (h : s.platforms = []) :
    preScrollState i now s =
      { s with player := verticalStep (horizontalStep i s.player),
               platforms := [] } := by
  unfold preScrollState
  rw [h]
  rfl

/-- On a step with no platforms, a non-boosting player and a post-integration
y below the floor, the whole step is movement followed by the fall check. -/
lemma updatePhysics_fall (i : Input) (now : ℚ) (g : Gen) (s : GameST)
    (hnil : s.platforms = []) (hb : s.player.isBoosting = false)
    (hy : CANVAS_HEIGHT < s.player.y + (s.player.vy + s.player.gravity)) :
    updatePhysics i now g s =
      fallCheck { s with player := verticalStep (horizontalStep i s.player),
                         platforms := [] } := by
  unfold updatePhysics
  rw [preScrollState_nil i now s hnil]
  refine congrArg fallCheck (scrollStep_player_of_not_lt g s.score _ ?_)
  have hyy :
      ({ s with
           player := verticalStep (horizontalStep i s.player),
           platforms := ([] : List Platform) } : GameST).player.y =
        s.player.y + (s.player.vy + s.player.gravity) := by
    simp [verticalStep_y, hb]
  rw [hyy]
  unfold CANVAS_HEIGHT at hy ⊢
  norm_num
  linarith

lemma updatePhysics_fall_no_shield (i : Input) (now : ℚ) (g : Gen) (s : GameST)
    (hnil : s.platforms = []) (hb : s.player.isBoosting = false)
    (hy : CANVAS_HEIGHT < s.player.y + (s.player.vy + s.player.gravity))
    (hsh : s.player.shieldCount = 0) :
    (updatePhysics i now g s).gameOverCount = s.gameOverCount + 1 := by
  rw [updatePhysics_fall i now g s hnil hb hy]
  unfold fallCheck
  have hyy :
      ({ s with
           player := verticalStep (horizontalStep i s.player),
           platforms := ([] : List Platform) } : GameST).player.y =
        s.player.y + (s.player.vy + s.player.gravity) := by
    simp [verticalStep_y, hb]
  rw [hyy, if_pos hy]
  have hsh' :
      ({ s with
           player := verticalStep (horizontalStep i s.player),
           platforms := ([] : List Platform) } : GameST).player.shieldCount
        = 0 := by
    simp [hsh]
  rw [hsh']
  simp

lemma updatePhysics_fall_with_shield (i : Input) (now : ℚ) (g : Gen) (s : GameST)
    (hnil : s.platforms = []) (hb : s.player.isBoosting = false)
    (hy : CANVAS_HEIGHT < s.player.y + (s.player.vy + s.player.gravity))
    (hsh : 0 < s.player.shieldCount) :
    (updatePhysics i now g s).player.shieldCount = s.player.shieldCount - 1 ∧
    (updatePhysics i now g s).player.vy = s.player.baseJumpStrength * (3/2) ∧
    (updatePhysics i now g s).gameOverCount = s.gameOverCount := by
  rw [updatePhysics_fall i now g s hnil hb hy]
  unfold fallCheck
  have hyy :
      ({ s with
           player := verticalStep (horizontalStep i s.player),
           platforms := ([] : List Platform) } : GameST).player.y =
        s.player.y + (s.player.vy + s.player.gravity) := by
    simp [verticalStep_y, hb]
  rw [hyy, if_pos hy]
  have hsh' :
      ({ s with
           player := verticalStep (horizontalStep i s.player),
           platforms := ([] : List Platform) } : GameST).player.shieldCount
        = s.player.shieldCount := by
    simp
  rw [hsh']
  rw [if_pos hsh]
  simp

@[simp] lemma movePlatform_powerUp (p : Platform) :
    (movePlatform p).powerUp = p.powerUp := by
  unfold movePlatform
  split_ifs <;> rfl

/-- Without a power-up token, an interaction leaves x and the box unchanged
and at most halves vx (landing damping). -/
lemma interactPlatform_no_powerup (pl : Player) (now : ℚ) (plat : Platform)
    (hpu : plat.powerUp = none) :
    (interactPlatform now pl plat).1.x = pl.x ∧
    (interactPlatform now pl plat).1.width = pl.width ∧
    ((interactPlatform now pl plat).1.vx = pl.vx ∨
     (interactPlatform now pl plat).1.vx = pl.vx * (1/2)) := by
  simp only [interactPlatform, hpu]
  split_ifs <;> simp

lemma interactAll_no_powerup (now : ℚ) (pl : Player) (plats : List Platform)
    (hpu : ∀ q ∈ plats, q.powerUp = none) :
    (interactAll now pl plats).1.x = pl.x ∧
    (interactAll now pl plats).1.width = pl.width ∧
    (pl.vx = 0 → (interactAll now pl plats).1.vx = 0) := by
  induction plats generalizing pl with
  | nil => exact ⟨rfl, rfl, fun h => h⟩
  | cons a l ih =>
    obtain ⟨hx1, hw1, hvx1⟩ :=
      interactPlatform_no_powerup pl now a (hpu a (by simp))
    obtain ⟨hx2, hw2, hvx2⟩ :=
      ih (interactPlatform now pl a).1 (fun q hq => hpu q (by simp [hq]))
    refine ⟨?_, ?_, ?_⟩
    · show (interactAll now (interactPlatform now pl a).1 l).1.x = pl.x
      rw [hx2, hx1]
    · show (interactAll now (interactPlatform now pl a).1 l).1.width = pl.width
      rw [hw2, hw1]
    · intro h0
      show (interactAll now (interactPlatform now pl a).1 l).1.vx = 0
      refine hvx2 ?_
      rcases hvx1 with h | h <;> rw [h, h0]
      ring

@[simp] lemma scrollStep_player_x (g : Gen) (cs : ℤ) (s : GameST) :
    (scrollStep g cs s).player.x = s.player.x := by
  unfold scrollStep
  split_ifs <;> rfl

@[simp] lemma scrollStep_player_vx (g : Gen) (cs : ℤ) (s : GameST) :
    (scrollStep g cs s).player.vx = s.player.vx := by
  unfold scrollStep
  split_ifs <;> rfl

@[simp] lemma scrollStep_player_width (g : Gen) (cs : ℤ) (s : GameST) :
    (scrollStep g cs s).player.width = s.player.width := by
  unfold scrollStep
  split_ifs <;> rfl

@[simp] lemma fallCheck_player_x (s : GameST) :
    (fallCheck s).player.x = s.player.x := by
  unfold fallCheck
  split_ifs <;> rfl

@[simp] lemma fallCheck_player_vx (s : GameST) :
    (fallCheck s).player.vx = s.player.vx := by
  unfold fallCheck
  split_ifs <;> rfl

@[simp] lemma fallCheck_player_width (s : GameST) :
    (fallCheck s).player.width = s.player.width := by
  unfold fallCheck
  split_ifs <;> rfl

@[simp] lemma preScrollState_player (i : Input) (now : ℚ) (s : GameST) :
    (preScrollState i now s).player =
      (interactAll now (verticalStep (horizontalStep i s.player))
        (s.platforms.map movePlatform)).1 := rfl

/-- One executed iteration of the accumulator loop. -/
lemma drainLoop_go (i : Input) (now : ℚ) (g : Gen) (fuel steps : ℕ) (acc : ℚ)
    (s : GameST) (h : FIXED_TIMESTEP ≤ acc) (hs : ¬ 240 < steps + 1) :
    drainLoop i now g (fuel + 1) steps acc s =
      drainLoop i now g fuel (steps + 1) (acc - FIXED_TIMESTEP)
        (updatePhysics i now g s) := by
  conv_lhs => rw [drainLoop]
  rw [if_pos h, if_neg hs]

/-- The accumulator loop stops once the accumulator is below one timestep. -/
lemma drainLoop_stop (i : Input) (now : ℚ) (g : Gen) (fuel steps : ℕ)
    (acc : ℚ) (s : GameST) (h : ¬ FIXED_TIMESTEP ≤ acc) :
    drainLoop i now g (fuel + 1) steps acc s = (s, acc) := by
  conv_lhs => rw [drainLoop]
  rw [if_neg h]

end Helpers

/-! ## Shared concrete inputs for witnesses and counterexamples -/

/-- No movement key held. -/
def inputNone : Input := ⟨false, false⟩

/-- Arbitrary generator draws (irrelevant when no platform is generated). -/
def genZero : Gen := ⟨0, 0, 0, 0, 0, 0, 0, 0, 0, 0⟩

/-- A plain default-stats player (stats as in the initial `playerRef`,
lines 65-84). -/
def basePlayer : Player :=
  { x := 100, y := 400, vx := 0, vy := 0, width := 40, height := 40,
    baseJumpStrength := -14, gravity := 1/2, moveSpeed := 1, shieldCount := 0,
    scoreMultiplierActive := false, scoreMultiplierEndTime := 0,
    isGiant := false, giantEndTime := 0, isBoosting := false,
    boosterEndTime := 0 }

/-- A player mid-fall below the world bottom with no shield. -/
def fallenState : GameST :=
  ⟨{ basePlayer with y := 700, vy := 5 }, [], 0, 0⟩

/-- The same fall with one shield charge. -/
def shieldedState : GameST :=
  ⟨{ basePlayer with y := 700, vy := 5, shieldCount := 1 }, [], 0, 0⟩

/-! ## C1 -/

/-- C1 counterexample: with the player already below the floor and no shield,
one animation tick whose frame delta is two fixed timesteps (a perfectly
ordinary 30 fps frame) drains two physics steps, and each of them invokes the
round-end callback: `gameOverCount` reaches 2 within a single round with no
reset in between, refuting "invoked exactly once per round, and no further
physics steps after that invocation". -/
theorem C1_counterexample :
    (animateTick true false inputNone 0 genZero (100/3) 0 fallenState).1.gameOverCount
      = 2 ∧ (2 : ℕ) ≠ 1 := by
  refine ⟨?_, by norm_num⟩
  have h1 : animateTick true false inputNone 0 genZero (100/3) 0 fallenState =
      drainLoop inputNone 0 genZero 242 0 (0 + min (100/3) MAX_DELTA_TIME)
        fallenState := rfl
  rw [h1]
  have hmin : (0 : ℚ) + min (100/3) MAX_DELTA_TIME = 100/3 := by
    rw [min_eq_left (by norm_num [MAX_DELTA_TIME])]
    ring
  rw [hmin]
  rw [show (242 : ℕ) = 241 + 1 from rfl]
  rw [drainLoop_go _ _ _ _ _ _ _ (by norm_num [FIXED_TIMESTEP]) (by norm_num)]
  rw [show (241 : ℕ) = 240 + 1 from rfl]
  rw [drainLoop_go _ _ _ _ _ _ _ (by norm_num [FIXED_TIMESTEP]) (by norm_num)]
  rw [show (240 : ℕ) = 239 + 1 from rfl]
  rw [drainLoop_stop _ _ _ _ _ _ _ (by norm_num [FIXED_TIMESTEP])]
  norm_num [updatePhysics, preScrollState, scrollStep, fallCheck, interactAll,
    interactPlatform, landingHit, activatePowerUp, horizontalStep, hStepVx,
    verticalStep, movePlatform, getCurrentTier, SCORE_TIERS, genPlatform,
    preMovingWidth, genPowerUp, inputNone, genZero, fallenState, basePlayer,
    CANVAS_WIDTH, CANVAS_HEIGHT, FRICTION, PLAYER_SIZE, PLATFORM_WIDTH,
    PLATFORM_HEIGHT, POWERUP_SIZE, POWERUP_DURATION, POWERUP_SPAWN_CHANCE]

/-- C1 (amended): every physics step in which the player's y (after
integration) exceeds the world height while `shieldCount = 0` invokes the
round-end callback — hence the callback fires once per such step, not once
per round; and the driver performs physics steps only while the externally
owned game state is PLAYING, so the engine stops stepping only when the
external collaborator reacts to the callback by leaving PLAYING (or resets). -/
theorem C1_amended_round_end :
    (∀ (i : Input) (now : ℚ) (g : Gen) (s : GameST),
        s.platforms = [] → s.player.isBoosting = false →
        s.player.shieldCount = 0 →
        CANVAS_HEIGHT < s.player.y + (s.player.vy + s.player.gravity) →
        (updatePhysics i now g s).gameOverCount = s.gameOverCount + 1) ∧
    (∀ (ready : Bool) (i : Input) (now : ℚ) (g : Gen) (dt acc : ℚ) (s : GameST),
        animateTick false ready i now g dt acc s = (s, acc)) := by
  constructor
  · intro i now g s hnil hb hsh hy
    exact updatePhysics_fall_no_shield i now g s hnil hb hy hsh
  · intro ready i now g dt acc s
    rfl

/-- C1 witness: the amended statement applied to a concrete fallen state. -/
theorem C1_amended_round_end_witness :
    (updatePhysics inputNone 0 genZero fallenState).gameOverCount = 0 + 1 := by
  exact C1_amended_round_end.1 inputNone 0 genZero fallenState rfl rfl rfl
    (by norm_num [CANVAS_HEIGHT, fallenState, basePlayer])

/-! ## C2 -/

/-- C2: a fall-through step with `shieldCount = 1` consumes the shield
(decrement to 0), converts the fall into `vy = baseJumpStrength * 1.5`
(a strong upward impulse, `baseJumpStrength` being negative) and does not
invoke the round-end callback; a fall-through step with `shieldCount = 0`
invokes the round-end callback. -/
theorem C2_shield_single_use :
    (∀ (i : Input) (now : ℚ) (g : Gen) (s : GameST),
        s.platforms = [] → s.player.isBoosting = false →
        CANVAS_HEIGHT < s.player.y + (s.player.vy + s.player.gravity) →
        s.player.shieldCount = 1 →
        (updatePhysics i now g s).player.shieldCount = 0 ∧
        (updatePhysics i now g s).player.vy =
          s.player.baseJumpStrength * (3/2) ∧
        (updatePhysics i now g s).gameOverCount = s.gameOverCount) ∧
    (∀ (i : Input) (now : ℚ) (g : Gen) (s : GameST),
        s.platforms = [] → s.player.isBoosting = false →
        CANVAS_HEIGHT < s.player.y + (s.player.vy + s.player.gravity) →
        s.player.shieldCount = 0 →
        (updatePhysics i now g s).gameOverCount = s.gameOverCount + 1) := by
  constructor
  · intro i now g s hnil hb hy hsh
    have h := updatePhysics_fall_with_shield i now g s hnil hb hy
      (by rw [hsh]; norm_num)
    rw [hsh] at h
    exact h
  · intro i now g s hnil hb hy hsh
    exact updatePhysics_fall_no_shield i now g s hnil hb hy hsh

/-- C2 witness: both parts at concrete fallen states (shield 1, then 0). -/
theorem C2_shield_single_use_witness :
    ((updatePhysics inputNone 0 genZero shieldedState).player.shieldCount = 0 ∧
     (updatePhysics inputNone 0 genZero shieldedState).player.vy = -14 * (3/2) ∧
     (updatePhysics inputNone 0 genZero shieldedState).gameOverCount = 0) ∧
    (updatePhysics inputNone 0 genZero fallenState).gameOverCount = 0 + 1 := by
  constructor
  · exact C2_shield_single_use.1 inputNone 0 genZero shieldedState rfl rfl
      (by norm_num [CANVAS_HEIGHT, shieldedState, basePlayer]) rfl
  · exact C2_shield_single_use.2 inputNone 0 genZero fallenState rfl rfl
      (by norm_num [CANVAS_HEIGHT, fallenState, basePlayer]) rfl

/-! ## C3 -/

/-- A player with ScoreMultiplier active until t = 10000. -/
def mulActivePlayer : Player :=
  { basePlayer with scoreMultiplierActive := true,
                    scoreMultiplierEndTime := 10000 }

/-- A player with Giant active until t = 6000. -/
def giantActivePlayer : Player :=
  { basePlayer with isGiant := true, giantEndTime := 6000 }

/-- A player with Booster active until t = 5000. -/
def boostActivePlayer : Player :=
  { basePlayer with isBoosting := true, boosterEndTime := 5000 }

/-- C3: for each timed power-up (ScoreMultiplier 10000 ms, Giant 5000 ms,
Booster 3000 ms), activating while already active with remaining time
`r = oldExpiry − now > 0` sets the new expiry to `now + duration + r`
(additive refresh); in particular activating ScoreMultiplier at t = 0 and
again at t = 4000 yields expiry 20000. -/
theorem C3_additive_refresh :
    (∀ (p : Player) (now : ℚ), 0 ≤ now → p.scoreMultiplierActive = true →
        now < p.scoreMultiplierEndTime →
        (activatePowerUp now .SCORE_MULTIPLIER p).scoreMultiplierEndTime =
          now + POWERUP_DURATION + (p.scoreMultiplierEndTime - now)) ∧
    (∀ (p : Player) (now : ℚ), 0 ≤ now → p.isGiant = true →
        now < p.giantEndTime →
        (activatePowerUp now .GIANT p).giantEndTime =
          now + 5000 + (p.giantEndTime - now)) ∧
    (∀ (p : Player) (now : ℚ), 0 ≤ now → p.isBoosting = true →
        now < p.boosterEndTime →
        (activatePowerUp now .BOOSTER p).boosterEndTime =
          now + 3000 + (p.boosterEndTime - now)) ∧
    (∀ p : Player, p.scoreMultiplierActive = false →
        (activatePowerUp 4000 .SCORE_MULTIPLIER
          (activatePowerUp 0 .SCORE_MULTIPLIER p)).scoreMultiplierEndTime =
          20000) := by
  refine ⟨?_, ?_, ?_, ?_⟩
  · intro p now h0 ha hlt
    have hne : p.scoreMultiplierEndTime ≠ 0 :=
      ne_of_gt (lt_of_le_of_lt h0 hlt)
    simp only [activatePowerUp]
    rw [if_pos ⟨ha, hne, hlt⟩]
    ring
  · intro p now h0 ha hlt
    have hne : p.giantEndTime ≠ 0 := ne_of_gt (lt_of_le_of_lt h0 hlt)
    simp only [activatePowerUp]
    rw [if_pos ⟨ha, hne, hlt⟩]
    ring
  · intro p now h0 ha hlt
    have hne : p.boosterEndTime ≠ 0 := ne_of_gt (lt_of_le_of_lt h0 hlt)
    simp only [activatePowerUp]
    rw [if_pos ⟨ha, hne, hlt⟩]
    ring
  · intro p hf
    norm_num [activatePowerUp, POWERUP_DURATION, hf]

/-- C3 witness: all four parts at concrete players and times. -/
theorem C3_additive_refresh_witness :
    (activatePowerUp 4000 .SCORE_MULTIPLIER
        mulActivePlayer).scoreMultiplierEndTime =
      4000 + POWERUP_DURATION + (10000 - 4000) ∧
    (activatePowerUp 4000 .GIANT giantActivePlayer).giantEndTime =
      4000 + 5000 + (6000 - 4000) ∧
    (activatePowerUp 4000 .BOOSTER boostActivePlayer).boosterEndTime =
      4000 + 3000 + (5000 - 4000) ∧
    (activatePowerUp 4000 .SCORE_MULTIPLIER
        (activatePowerUp 0 .SCORE_MULTIPLIER
          basePlayer)).scoreMultiplierEndTime = 20000 := by
  refine ⟨?_, ?_, ?_, ?_⟩
  · have h := C3_additive_refresh.1 mulActivePlayer 4000 (by norm_num) rfl
      (by norm_num [mulActivePlayer, basePlayer])
    rw [h]
    norm_num [mulActivePlayer, basePlayer]
  · have h := C3_additive_refresh.2.1 giantActivePlayer 4000 (by norm_num) rfl
      (by norm_num [giantActivePlayer, basePlayer])
    rw [h]
    norm_num [giantActivePlayer, basePlayer]
  · have h := C3_additive_refresh.2.2.1 boostActivePlayer 4000 (by norm_num) rfl
      (by norm_num [boostActivePlayer, basePlayer])
    rw [h]
    norm_num [boostActivePlayer, basePlayer]
  · exact C3_additive_refresh.2.2.2 basePlayer rfl

/-! ## C4 -/

/-- A falling player whose bottom edge will land inside the tolerance band of
both platforms below. -/
def c4Player : Player := { basePlayer with y := 460 }

def c4Plat1 : Platform :=
  { x := 90, y := 500, width := 105, height := 15, isMoving := false,
    moveSpeed := 0, initialX := 90, moveRange := 0, powerUp := none }

def c4Plat2 : Platform := { c4Plat1 with y := 498 }

def c4State : GameST := ⟨c4Player, [c4Plat1, c4Plat2], 0, 0⟩

/-- C4 counterexample: entering the interaction phase, BOTH platforms satisfy
the landing test (bottom edge 500.5 lies in [500, 520] and in [498, 518]),
yet after the step `y = 460 = c4Plat1.y − height`: the FIRST matching platform
fixed the final position; the last matching platform would give
`498 − 40 = 458 ≠ 460`.  The first bounce sets vy to the negative jump
impulse, so the `vy > 0` guard blocks every later platform — "each matching
platform triggers a bounce, last one wins" is false. -/
theorem C4_counterexample :
    landingHit (verticalStep (horizontalStep inputNone c4Player)) c4Plat1
      = true ∧
    landingHit (verticalStep (horizontalStep inputNone c4Player)) c4Plat2
      = true ∧
    (updatePhysics inputNone 0 genZero c4State).player.y = 460 ∧
    (updatePhysics inputNone 0 genZero c4State).player.vy = -14 ∧
    c4Plat2.y - (verticalStep (horizontalStep inputNone c4Player)).height
      = 458 ∧
    (460 : ℚ) ≠ 458 := by
  norm_num [updatePhysics, preScrollState, scrollStep, fallCheck, interactAll,
    interactPlatform, landingHit, activatePowerUp, horizontalStep, hStepVx,
    verticalStep, movePlatform, getCurrentTier, SCORE_TIERS, genPlatform,
    preMovingWidth, genPowerUp, inputNone, genZero, c4State, c4Player,
    c4Plat1, c4Plat2, basePlayer,
    CANVAS_WIDTH, CANVAS_HEIGHT, FRICTION, PLAYER_SIZE, PLATFORM_WIDTH,
    PLATFORM_HEIGHT, POWERUP_SIZE, POWERUP_DURATION, POWERUP_SPAWN_CHANCE]

/-- C4 (amended): when several platforms satisfy the landing test in one
step, only the FIRST matching platform (iteration order) triggers a bounce
and determines the final vy and y; the bounce makes vy equal to the
(non-positive) jump impulse, and a non-falling player is left untouched by
every remaining platform (when no power-up tokens are in play), so later
matches are skipped. -/
theorem C4_amended_first_match_wins :
    (∀ (now : ℚ) (pl : Player) (plat : Platform) (rest : List Platform),
        plat.powerUp = none → (∀ q ∈ rest, q.powerUp = none) →
        pl.baseJumpStrength ≤ 0 → landingHit pl plat = true →
        (interactAll now pl (plat :: rest)).1.vy = pl.baseJumpStrength ∧
        (interactAll now pl (plat :: rest)).1.y = plat.y - pl.height) ∧
    (∀ (now : ℚ) (pl : Player) (plats : List Platform),
        (∀ q ∈ plats, q.powerUp = none) → pl.vy ≤ 0 →
        (interactAll now pl plats).1 = pl) := by
  constructor
  · intro now pl plat rest hpu hrest hbjs hhit
    have hstep : interactPlatform now pl plat =
        ({ pl with vy := pl.baseJumpStrength, y := plat.y - pl.height,
                   vx := pl.vx * (1/2) }, plat) := by
      unfold interactPlatform
      rw [hpu]
      simp only [hhit, if_true]
    have hrec := interactAll_vy_nonpos
      { pl with vy := pl.baseJumpStrength, y := plat.y - pl.height,
                vx := pl.vx * (1/2) } now rest hrest hbjs
    simp only [interactAll, hstep, hrec]
    exact ⟨trivial, trivial⟩
  · intro now pl plats hpu hvy
    rw [interactAll_vy_nonpos pl now plats hpu hvy]

/-- C4 witness: the amended statement at the concrete two-platform state. -/
theorem C4_amended_first_match_wins_witness :
    (interactAll 0 (verticalStep (horizontalStep inputNone c4Player))
        [c4Plat1, c4Plat2]).1.vy = -14 ∧
    (interactAll 0 (verticalStep (horizontalStep inputNone c4Player))
        [c4Plat1, c4Plat2]).1.y = 460 := by
  have h := C4_amended_first_match_wins.1 0
    (verticalStep (horizontalStep inputNone c4Player)) c4Plat1 [c4Plat2]
    rfl
    (by intro q hq; simp only [List.mem_singleton] at hq; subst hq; rfl)
    (by norm_num [verticalStep, horizontalStep, hStepVx, inputNone, c4Player,
          basePlayer, FRICTION, CANVAS_WIDTH])
    (by norm_num [landingHit, verticalStep, horizontalStep, hStepVx, inputNone,
          c4Player, c4Plat1, basePlayer, FRICTION, CANVAS_WIDTH])
  constructor
  · rw [h.1]
    norm_num [verticalStep, horizontalStep, hStepVx, inputNone, c4Player,
      basePlayer, FRICTION, CANVAS_WIDTH]
  · rw [h.2]
    norm_num [verticalStep, horizontalStep, hStepVx, inputNone, c4Player,
      c4Plat1, basePlayer, FRICTION, CANVAS_WIDTH]

/-! ## C5 -/

/-- A platform carrying a Giant token within pickup distance of a player
standing at the left wall. -/
def c5Plat : Platform :=
  { x := 36, y := 440, width := 2, height := 15, isMoving := false,
    moveSpeed := 0, initialX := 36, moveRange := 0, powerUp := some .GIANT }

def c5Player : Player := { basePlayer with x := 0 }

def c5State : GameST := ⟨c5Player, [c5Plat], 0, 0⟩

/-- C5 counterexample: the wall clamp runs before the platform interactions,
so a Giant pickup later in the same step (which shifts `x` left by half the
width delta) leaves the player at `x = −20`, outside `[0, worldWidth − width]`
at the end of the step — "after one physics step the player's x lies in
[0, worldWidth − width]" is false as stated. -/
theorem C5_counterexample :
    (updatePhysics inputNone 0 genZero c5State).player.x = -20 ∧
    ¬ (0 : ℚ) ≤ -20 := by
  norm_num [updatePhysics, preScrollState, scrollStep, fallCheck, interactAll,
    interactPlatform, landingHit, activatePowerUp, horizontalStep, hStepVx,
    verticalStep, movePlatform, getCurrentTier, SCORE_TIERS, genPlatform,
    preMovingWidth, genPowerUp, inputNone, genZero, c5State, c5Player, c5Plat,
    basePlayer,
    CANVAS_WIDTH, CANVAS_HEIGHT, FRICTION, PLAYER_SIZE, PLATFORM_WIDTH,
    PLATFORM_HEIGHT, POWERUP_SIZE, POWERUP_DURATION, POWERUP_SPAWN_CHANCE]

/-- C5 (amended): for every vx, in a physics step during which no power-up is
collected (here: no platform carries a token) and the player's width is at
most the world width, after the step x lies in `[0, worldWidth − width]`, and
vx is 0 at the end of any step in which a wall clamp triggered.  (A Giant
pickup inside the step can move x outside the range until the next step's
clamp, as the counterexample shows.) -/
theorem C5_amended_boundary_clamp :
    ∀ (i : Input) (now : ℚ) (g : Gen) (s : GameST),
      (∀ q ∈ s.platforms, q.powerUp = none) →
      s.player.width ≤ CANVAS_WIDTH →
      (0 ≤ (updatePhysics i now g s).player.x ∧
       (updatePhysics i now g s).player.x +
         (updatePhysics i now g s).player.width ≤ CANVAS_WIDTH) ∧
      ((s.player.x + hStepVx i s.player < 0 ∨
        CANVAS_WIDTH < s.player.x + hStepVx i s.player + s.player.width) →
        (updatePhysics i now g s).player.vx = 0) := by
  intro i now g s hpu hw
  have hmap : ∀ q ∈ s.platforms.map movePlatform, q.powerUp = none := by
    intro q hq
    rw [List.mem_map] at hq
    obtain ⟨p, hp, rfl⟩ := hq
    rw [movePlatform_powerUp]
    exact hpu p hp
  obtain ⟨hx2, hw2, hvx2⟩ := interactAll_no_powerup now
    (verticalStep (horizontalStep i s.player)) (s.platforms.map movePlatform)
    hmap
  have hfx : (updatePhysics i now g s).player.x =
      (horizontalStep i s.player).x := by
    simp [updatePhysics, hx2]
  have hfw : (updatePhysics i now g s).player.width = s.player.width := by
    simp [updatePhysics, hw2]
  constructor
  · rw [hfx, hfw]
    exact horizontalStep_x_range i s.player hw
  · intro ht
    have h0 : (verticalStep (horizontalStep i s.player)).vx = 0 := by
      rw [verticalStep_vx]
      exact horizontalStep_clamp_vx i s.player hw ht
    have hz := hvx2 h0
    simp [updatePhysics, hz]

/-- A player being pushed through the right wall by a large vx. -/
def c5ClampState : GameST :=
  ⟨{ basePlayer with x := 390, vx := 50 }, [], 0, 0⟩

/-- C5 witness: the amended statement at a state whose step triggers the
right wall clamp: x ends in range and vx is zeroed. -/
theorem C5_amended_boundary_clamp_witness :
    (0 ≤ (updatePhysics inputNone 0 genZero c5ClampState).player.x ∧
     (updatePhysics inputNone 0 genZero c5ClampState).player.x +
       (updatePhysics inputNone 0 genZero c5ClampState).player.width
       ≤ CANVAS_WIDTH) ∧
    (updatePhysics inputNone 0 genZero c5ClampState).player.vx = 0 := by
  have h := C5_amended_boundary_clamp inputNone 0 genZero c5ClampState
    (by intro q hq; simp [c5ClampState] at hq)
    (by norm_num [c5ClampState, basePlayer, CANVAS_WIDTH])
  refine ⟨h.1, h.2 (Or.inr ?_)⟩
  norm_num [c5ClampState, basePlayer, hStepVx, inputNone, FRICTION,
    CANVAS_WIDTH]

/-! ## C6 -/

/-- C6 counterexample: growing at (100, 400) with box 40 moves the vertical
center from 420 to 400 (the code shifts y by the FULL height delta, anchoring
the bottom edge, not the center), so "the position correction keeps the
player's visual center unchanged" is false. -/
theorem C6_counterexample :
    (activatePowerUp 0 .GIANT basePlayer).y +
      (activatePowerUp 0 .GIANT basePlayer).height / 2 = 400 ∧
    basePlayer.y + basePlayer.height / 2 = 420 ∧
    (400 : ℚ) ≠ 420 := by
  norm_num [activatePowerUp, basePlayer, PLAYER_SIZE]

/-- C6 (amended): width/height are 2×PLAYER_SIZE exactly while Giant is
active (the grow transition sets them, re-activation while Giant leaves the
box untouched, expiry restores PLAYER_SIZE), and the position corrections
keep the player's horizontal center and BOTTOM edge unchanged on both
transitions (growth expands upward from the bottom center, not from the
visual center); the grow/expire round trip restores x, y, width and height
exactly. -/
theorem C6_amended_giant_box :
    (∀ (p : Player) (now : ℚ), p.isGiant = false →
        (activatePowerUp now .GIANT p).width = 2 * PLAYER_SIZE ∧
        (activatePowerUp now .GIANT p).height = 2 * PLAYER_SIZE ∧
        (activatePowerUp now .GIANT p).x +
          (activatePowerUp now .GIANT p).width / 2 = p.x + p.width / 2 ∧
        (activatePowerUp now .GIANT p).y +
          (activatePowerUp now .GIANT p).height = p.y + p.height) ∧
    (∀ p : Player,
        (expireGiant p).width = PLAYER_SIZE ∧
        (expireGiant p).height = PLAYER_SIZE ∧
        (expireGiant p).x + (expireGiant p).width / 2 = p.x + p.width / 2 ∧
        (expireGiant p).y + (expireGiant p).height = p.y + p.height) ∧
    (∀ (p : Player) (now : ℚ), p.isGiant = false → p.width = PLAYER_SIZE →
        p.height = PLAYER_SIZE →
        (expireGiant (activatePowerUp now .GIANT p)).x = p.x ∧
        (expireGiant (activatePowerUp now .GIANT p)).y = p.y ∧
        (expireGiant (activatePowerUp now .GIANT p)).width = PLAYER_SIZE ∧
        (expireGiant (activatePowerUp now .GIANT p)).height = PLAYER_SIZE ∧
        (expireGiant (activatePowerUp now .GIANT p)).isGiant = false) ∧
    (∀ (p : Player) (now : ℚ), p.isGiant = true →
        (activatePowerUp now .GIANT p).x = p.x ∧
        (activatePowerUp now .GIANT p).y = p.y ∧
        (activatePowerUp now .GIANT p).width = p.width ∧
        (activatePowerUp now .GIANT p).height = p.height) := by
  refine ⟨?_, ?_, ?_, ?_⟩
  · intro p now hf
    simp only [activatePowerUp, hf, Bool.false_eq_true, if_false]
    refine ⟨by ring, by ring, by ring, by ring⟩
  · intro p
    simp only [expireGiant]
    refine ⟨by ring, by ring, by ring, by ring⟩
  · intro p now hf hw hh
    simp only [activatePowerUp, expireGiant, hf, Bool.false_eq_true, if_false]
    refine ⟨?_, ?_, by ring, by ring, by simp⟩
    · rw [hw]
      ring
    · rw [hh]
      ring
  · intro p now ht
    simp only [activatePowerUp, ht, if_true]
    exact ⟨by simp, by simp, by simp, by simp⟩

/-- C6 witness: the amended statement at the base player. -/
theorem C6_amended_giant_box_witness :
    (activatePowerUp 0 .GIANT basePlayer).width = 2 * PLAYER_SIZE ∧
    (activatePowerUp 0 .GIANT basePlayer).x +
      (activatePowerUp 0 .GIANT basePlayer).width / 2 = 100 + 40 / 2 ∧
    (activatePowerUp 0 .GIANT basePlayer).y +
      (activatePowerUp 0 .GIANT basePlayer).height = 400 + 40 ∧
    (expireGiant (activatePowerUp 0 .GIANT basePlayer)).x = 100 ∧
    (expireGiant (activatePowerUp 0 .GIANT basePlayer)).y = 400 := by
  have h1 := C6_amended_giant_box.1 basePlayer 0 rfl
  have h3 := C6_amended_giant_box.2.2.1 basePlayer 0 rfl rfl rfl
  refine ⟨h1.1, ?_, ?_, ?_, ?_⟩
  · rw [h1.2.2.1]
    norm_num [basePlayer]
  · rw [h1.2.2.2]
    norm_num [basePlayer]
  · rw [h3.1]
    norm_num [basePlayer]
  · rw [h3.2.1]
    norm_num [basePlayer]

/-! ## C7 -/

/-- Field values of a platform generated through the moving branch. -/
lemma genPlatform_moving_fields (cs : ℤ) (lastPlat : Platform) (g : Gen)
    (hcond : 1500 < cs ∧
      g.moveChanceRand < (if 3000 < cs then (3:ℚ)/5 else 3/10)) :
    (genPlatform cs lastPlat g).isMoving = true ∧
    (genPlatform cs lastPlat g).moveRange = g.rangeRand * 50 + 50 ∧
    (genPlatform cs lastPlat g).initialX =
      clampInitialX (genX0 cs lastPlat g) (g.rangeRand * 50 + 50)
        (preMovingWidth cs g) := by
  unfold genPlatform
  rw [if_pos hcond]
  exact ⟨rfl, rfl, rfl⟩

/-- Field values of a platform generated through the static branch. -/
lemma genPlatform_static_fields (cs : ℤ) (lastPlat : Platform) (g : Gen)
    (hcond : ¬ (1500 < cs ∧
      g.moveChanceRand < (if 3000 < cs then (3:ℚ)/5 else 3/10))) :
    (genPlatform cs lastPlat g).isMoving = false ∧
    (genPlatform cs lastPlat g).width = preMovingWidth cs g := by
  unfold genPlatform
  rw [if_neg hcond]
  exact ⟨rfl, rfl⟩

/-- The width entering the oscillation reclamp is at most 126
(`105 × 1.2`; under the score shrink it is at most 105). -/
lemma preMovingWidth_le (cs : ℤ) (g : Gen) (h0 : 0 ≤ g.diffRand)
    (h1 : g.diffRand ≤ 1) : preMovingWidth cs g ≤ 126 := by
  unfold preMovingWidth PLATFORM_WIDTH
  dsimp only
  split_ifs with h
  · have hc : (500 : ℚ) < (cs : ℚ) := by exact_mod_cast h
    have hsf : 0 ≤ min (((cs : ℚ) - 500) / 5000) (1/2) :=
      le_min (by linarith) (by norm_num)
    have := max_le (show (105 : ℚ) * (1 - min (((cs : ℚ) - 500) / 5000) (1/2))
        ≤ 126 by nlinarith) (show (45 : ℚ) ≤ 126 by norm_num)
    exact this
  · nlinarith

/-- The reclamped oscillation center keeps the full swing on screen with
respect to the width it was computed from. -/
lemma clampInitialX_bounds (x0 mr nw : ℚ) (hx0 : 0 ≤ x0) (hnw : nw ≤ 126)
    (hmr1 : 50 ≤ mr) (hmr2 : mr ≤ 100) :
    0 ≤ clampInitialX x0 mr nw - mr ∧
    clampInitialX x0 mr nw + mr + nw ≤ CANVAS_WIDTH := by
  unfold clampInitialX CANVAS_WIDTH
  dsimp only
  split_ifs <;> constructor <;> linarith

/-- A Gen instance driving the moving branch with draws that push the
re-randomized width past the reclamp budget. -/
def c7Gen : Gen :=
  { gapRand := 0, diffRand := 0, xRand := 9/10, moveChanceRand := 1/5,
    signRand := 7/10, rangeRand := 0, sizeRand1 := 9/10, sizeRand2 := 9/10,
    puChanceRand := 1/2, puKindRand := 0 }

/-- The reference platform for the C7/C8 generation counterexamples. -/
def c7Last : Platform :=
  { x := 200, y := 200, width := 105, height := 15, isMoving := false,
    moveSpeed := 0, initialX := 200, moveRange := 0, powerUp := none }

/-- C7 counterexample: at score 1600 with these draws, the generated platform
is moving with `initialX = 268.1`, `moveRange = 50` but final width
`125.92944` (the two ×[0.7,1.3] re-randomizations ran AFTER the reclamp,
which used the pre-re-randomization width 81.9), so
`initialX + moveRange + width = 444.02944 > 400`: the full oscillation is NOT
on screen at creation. -/
theorem C7_counterexample :
    (genPlatform 1600 c7Last c7Gen).isMoving = true ∧
    (genPlatform 1600 c7Last c7Gen).initialX = 2681/10 ∧
    (genPlatform 1600 c7Last c7Gen).moveRange = 50 ∧
    (genPlatform 1600 c7Last c7Gen).width = 787059/6250 ∧
    ¬ ((genPlatform 1600 c7Last c7Gen).initialX +
        (genPlatform 1600 c7Last c7Gen).moveRange +
        (genPlatform 1600 c7Last c7Gen).width ≤ CANVAS_WIDTH) := by
  norm_num [genPlatform, genX0, clampInitialX, preMovingWidth, genPowerUp,
    c7Gen, c7Last, min_def, max_def,
    CANVAS_WIDTH, PLATFORM_WIDTH, PLATFORM_HEIGHT, POWERUP_SPAWN_CHANCE]

/-- C7 (amended): the oscillation reclamp guarantees
`initialX − moveRange ≥ 0` and `initialX + moveRange + w ≤ worldWidth` only
for the width `w = preMovingWidth` it was computed from (the later moving
re-randomization can push the actual width past that budget); independently,
the per-step hard wall clamps keep every moving platform's x inside
`[0, worldWidth − width]` after each movement step. -/
theorem C7_amended_oscillation :
    (∀ (cs : ℤ) (lastPlat : Platform) (g : Gen),
        0 ≤ g.diffRand → g.diffRand ≤ 1 → 0 ≤ g.rangeRand → g.rangeRand ≤ 1 →
        (genPlatform cs lastPlat g).isMoving = true →
        0 ≤ (genPlatform cs lastPlat g).initialX -
            (genPlatform cs lastPlat g).moveRange ∧
        (genPlatform cs lastPlat g).initialX +
            (genPlatform cs lastPlat g).moveRange + preMovingWidth cs g
          ≤ CANVAS_WIDTH) ∧
    (∀ p : Platform, p.isMoving = true → p.moveSpeed ≠ 0 →
        p.width ≤ CANVAS_WIDTH →
        0 ≤ (movePlatform p).x ∧
        (movePlatform p).x + (movePlatform p).width ≤ CANVAS_WIDTH) := by
  constructor
  · intro cs lastPlat g h0 h1 hr0 hr1 hmov
    by_cases hcond : (1500 < cs ∧
        g.moveChanceRand < (if 3000 < cs then (3:ℚ)/5 else 3/10))
    · obtain ⟨hm, hmr, hix⟩ := genPlatform_moving_fields cs lastPlat g hcond
      rw [hix, hmr]
      exact clampInitialX_bounds (genX0 cs lastPlat g) _ _
        (le_max_left 0 _) (preMovingWidth_le cs g h0 h1)
        (by linarith) (by linarith)
    · exfalso
      have hf := (genPlatform_static_fields cs lastPlat g hcond).1
      rw [hmov] at hf
      simp at hf
  · intro p hm hs hw
    unfold movePlatform
    rw [if_pos ⟨hm, hs⟩]
    dsimp only
    split_ifs <;> constructor <;> simp_all <;> linarith

/-- A moving platform about to cross the right wall. -/
def c7MovingPlat : Platform :=
  { x := 395, y := 200, width := 60, height := 15, isMoving := true,
    moveSpeed := 3, initialX := 380, moveRange := 60, powerUp := none }

/-- C7 witness: both parts at concrete inputs (the counterexample draws for
the generation bound, and a moving platform crossing the right wall for the
movement clamp). -/
theorem C7_amended_oscillation_witness :
    (0 ≤ (genPlatform 1600 c7Last c7Gen).initialX -
        (genPlatform 1600 c7Last c7Gen).moveRange ∧
     (genPlatform 1600 c7Last c7Gen).initialX +
        (genPlatform 1600 c7Last c7Gen).moveRange + preMovingWidth 1600 c7Gen
       ≤ CANVAS_WIDTH) ∧
    (0 ≤ (movePlatform c7MovingPlat).x ∧
     (movePlatform c7MovingPlat).x + (movePlatform c7MovingPlat).width
       ≤ CANVAS_WIDTH) := by
  constructor
  · exact C7_amended_oscillation.1 1600 c7Last c7Gen
      (by norm_num [c7Gen]) (by norm_num [c7Gen])
      (by norm_num [c7Gen]) (by norm_num [c7Gen])
      (by norm_num [genPlatform, genX0, clampInitialX, preMovingWidth,
        genPowerUp, c7Gen, c7Last, min_def, max_def, CANVAS_WIDTH,
        PLATFORM_WIDTH, PLATFORM_HEIGHT, POWERUP_SPAWN_CHANCE])
  · exact C7_amended_oscillation.2 c7MovingPlat rfl
      (by norm_num [c7MovingPlat]) (by norm_num [c7MovingPlat, CANVAS_WIDTH])

/-! ## C8 -/

/-- C8 counterexample: at score 600 with random factor draw 0 (scale 0.8,
randomized base 84), the generated width is `102.9 = max(105 × 0.98, 45)` —
the shrink branch OVERWRITES the randomized width with a multiple of the
constant `PLATFORM_WIDTH`; the claim's "shrink applied to the randomized
base" would give `max(84 × 0.98, 45) = 82.32 ≠ 102.9`. -/
theorem C8_counterexample :
    (genPlatform 600 c7Last c7Gen).isMoving = false ∧
    (genPlatform 600 c7Last c7Gen).width = 1029/10 ∧
    max (PLATFORM_WIDTH * (4/5 + c7Gen.diffRand * (2/5)) *
      (1 - min ((600 - 500 : ℚ) / 5000) (1/2))) 45 = 2058/25 ∧
    (1029/10 : ℚ) ≠ 2058/25 := by
  norm_num [genPlatform, genX0, clampInitialX, preMovingWidth, genPowerUp,
    c7Gen, c7Last, min_def, max_def,
    CANVAS_WIDTH, PLATFORM_WIDTH, PLATFORM_HEIGHT, POWERUP_SPAWN_CHANCE]

/-- C8 (amended): for a newly generated non-moving platform with score
greater than 500, the width equals
`max (PLATFORM_WIDTH × (1 − min((score−500)/5000, 0.5))) 45` — the shrink
replaces the randomized base width (the random scale in [0.8, 1.2] is
discarded and affects the final width only when score ≤ 500, or through the
separate moving-platform re-randomization). -/
theorem C8_amended_shrink_overwrites :
    ∀ (cs : ℤ) (lastPlat : Platform) (g : Gen),
      500 < cs →
      (genPlatform cs lastPlat g).isMoving = false →
      (genPlatform cs lastPlat g).width =
        max (PLATFORM_WIDTH * (1 - min (((cs : ℚ) - 500) / 5000) (1/2))) 45 := by
  intro cs lastPlat g h5 hmov
  by_cases hcond : (1500 < cs ∧
      g.moveChanceRand < (if 3000 < cs then (3:ℚ)/5 else 3/10))
  · exfalso
    have hm := (genPlatform_moving_fields cs lastPlat g hcond).1
    rw [hmov] at hm
    simp at hm
  · rw [(genPlatform_static_fields cs lastPlat g hcond).2]
    unfold preMovingWidth
    rw [if_pos h5]

/-- C8 witness: the amended statement at score 600 with the concrete draws. -/
theorem C8_amended_shrink_overwrites_witness :
    (genPlatform 600 c7Last c7Gen).width =
      max (PLATFORM_WIDTH * (1 - min ((((600 : ℤ) : ℚ) - 500) / 5000) (1/2)))
        45 := by
  exact C8_amended_shrink_overwrites 600 c7Last c7Gen (by norm_num)
    (by norm_num [genPlatform, genX0, clampInitialX, preMovingWidth,
      genPowerUp, c7Gen, c7Last, min_def, max_def, CANVAS_WIDTH,
      PLATFORM_WIDTH, PLATFORM_HEIGHT, POWERUP_SPAWN_CHANCE])

/-! ## C9 -/

/-- A mid-scroll state at score 2600 (ScoreMultiplier inactive). -/
def c9State : GameST := ⟨{ basePlayer with y := 250 }, [], 2600, 0⟩

/-- C9: on a scroll step the score gain is
`floor(diff × multiplier × tierMultiplier)` with `multiplier` 2 iff
ScoreMultiplier is active (else 1) and the tier taken from the score BEFORE
the gain by the downward scan; the scan maps every score in [2500, 5000) —
in particular 2600 — to the 2500 tier with multiplier 2. -/
theorem C9_score_gain :
    (∀ (g : Gen) (cs : ℤ) (s : GameST),
        s.player.y < CANVAS_HEIGHT / 2 →
        (scrollStep g cs s).score =
          s.score + ⌊(CANVAS_HEIGHT / 2 - s.player.y) *
            (if s.player.scoreMultiplierActive then 2 else 1) *
            (getCurrentTier s.score).multiplier⌋) ∧
    getCurrentTier 2600 = ⟨2500, 2⟩ ∧
    (∀ sc : ℤ, 2500 ≤ sc → sc < 5000 → getCurrentTier sc = ⟨2500, 2⟩) := by
  refine ⟨?_, ?_, ?_⟩
  · intro g cs s hy
    rw [scrollStep_score, if_pos hy]
  · rw [getCurrentTier_eq]
    norm_num
  · intro sc h1 h2
    rw [getCurrentTier_eq, if_neg (by linarith), if_neg (by linarith),
      if_pos h1]

/-- C9 witness: a scroll step from y = 250 at score 2600 gains
`floor(50 × 1 × 2) = 100`. -/
theorem C9_score_gain_witness :
    (scrollStep genZero 2600 c9State).score = 2600 + 100 := by
  have h := C9_score_gain.1 genZero 2600 c9State
    (by norm_num [c9State, basePlayer, CANVAS_HEIGHT])
  rw [h]
  norm_num [c9State, basePlayer, CANVAS_HEIGHT, getCurrentTier_eq]

/-! ## C10 -/

/-- C10: the score is 0 after reset, never decreases across a physics step
(each scroll gain is `⌊diff × multiplier × tierMultiplier⌋ ≥ 0` since the
scroll guard makes `diff > 0` and both multipliers are at least 1), stays
non-negative, and is unchanged by any step whose scroll condition does not
trigger. -/
theorem C10_score_monotone :
    (∀ c : CharacterType, (resetGame c).score = 0) ∧
    (∀ (i : Input) (now : ℚ) (g : Gen) (s : GameST),
        s.score ≤ (updatePhysics i now g s).score) ∧
    (∀ (i : Input) (now : ℚ) (g : Gen) (s : GameST),
        0 ≤ s.score → 0 ≤ (updatePhysics i now g s).score) ∧
    (∀ (i : Input) (now : ℚ) (g : Gen) (s : GameST),
        ¬ (preScrollState i now s).player.y < CANVAS_HEIGHT / 2 →
        (updatePhysics i now g s).score = s.score) := by
  have hmono : ∀ (i : Input) (now : ℚ) (g : Gen) (s : GameST),
      s.score ≤ (updatePhysics i now g s).score := by
    intro i now g s
    unfold updatePhysics
    rw [fallCheck_score, scrollStep_score, preScrollState_score]
    have hgain : (0 : ℤ) ≤
        (if (preScrollState i now s).player.y < CANVAS_HEIGHT / 2 then
          ⌊(CANVAS_HEIGHT / 2 - (preScrollState i now s).player.y) *
            (if (preScrollState i now s).player.scoreMultiplierActive
             then 2 else 1) * (getCurrentTier s.score).multiplier⌋
         else 0) := by
      split_ifs with hy hm
      · refine Int.le_floor.mpr ?_
        push_cast
        have htier := one_le_tier_multiplier s.score
        nlinarith
      · refine Int.le_floor.mpr ?_
        push_cast
        have htier := one_le_tier_multiplier s.score
        nlinarith
      · exact le_refl 0
    linarith
  refine ⟨fun c => rfl, hmono,
    fun i now g s h0 => le_trans h0 (hmono i now g s), ?_⟩
  intro i now g s hy
  unfold updatePhysics
  rw [fallCheck_score, scrollStep_player_of_not_lt _ _ _ hy,
    preScrollState_score]

/-- C10 witness: reset score is 0, and a non-scrolling fallen step keeps the
score at 0. -/
theorem C10_score_monotone_witness :
    (resetGame CharacterType.YELLOW).score = 0 ∧
    fallenState.score ≤ (updatePhysics inputNone 0 genZero fallenState).score ∧
    0 ≤ (updatePhysics inputNone 0 genZero fallenState).score ∧
    (updatePhysics inputNone 0 genZero fallenState).score =
      fallenState.score := by
  refine ⟨C10_score_monotone.1 CharacterType.YELLOW,
    C10_score_monotone.2.1 inputNone 0 genZero fallenState,
    C10_score_monotone.2.2.1 inputNone 0 genZero fallenState
      (by norm_num [fallenState]),
    C10_score_monotone.2.2.2 inputNone 0 genZero fallenState ?_⟩
  norm_num [preScrollState, interactAll, verticalStep, horizontalStep,
    hStepVx, movePlatform, fallenState, basePlayer, inputNone,
    CANVAS_HEIGHT, FRICTION, CANVAS_WIDTH]

end Knew6
